import Mathlib

/-!
Verification of the telegram-mcp repository against its natural-language
specification.

The development shallowly embeds the relevant Python code:

* `src/telegram_mcp/validators.py` (the `validate_id` decorator and its inner
  `validate_single_id`),
* `src/telegram_mcp/exceptions.py` (`log_and_format_error` and the
  `ErrorCategory` taxonomy),
* the file-path-accepting tools of `src/telegram_mcp/tools/media.py`,
  `tools/users.py` and `tools/admin.py` (`send_file`, `send_sticker`,
  `send_voice`, `set_profile_photo`),
* the MCP-roots negotiator and path resolver that the repository's own test
  suite (`test_file_path_security.py`) exercises.  Those two functions
  (`_get_effective_allowed_roots`, `_resolve_readable_file_path`) are absent
  from the source tree — only the tests reference them — so they are modelled
  from the specification, as marked on their doc comments.

Python integers are embedded as `Int`, Python strings as `String`, Python
exceptions as `Except` with the exception text as the error value, and the
filesystem / Telethon client as explicit environments of functions.
-/

/- ## Python value model -/

/-- Embedding of the Python values that can reach `validate_single_id`:
integers, booleans (which are `int` instances in Python), strings, lists and
`None`. -/
inductive PyValue where
  | vInt : Int → PyValue
  | vBool : Bool → PyValue
  | vStr : String → PyValue
  | vList : List PyValue → PyValue
  | vNone : PyValue

/-- A single-quote character as a string (Python quotes values with it in
error messages). -/
def sglQuote : String := "\x27"

mutual

/-- Embedding of Python `repr` for the embedded values (string escaping is not
modelled; the strings reaching the claims contain no quotes). -/
def pyRepr : PyValue → String
  | .vInt n => toString n
  | .vBool b => if b then "True" else "False"
  | .vStr s => sglQuote ++ s ++ sglQuote
  | .vNone => "None"
  | .vList vs => "[" ++ String.intercalate ", " (pyReprList vs) ++ "]"

/-- `pyRepr` mapped over a list (mutual helper). -/
def pyReprList : List PyValue → List String
  | [] => []
  | v :: vs => pyRepr v :: pyReprList vs

end

/-- Embedding of Python `str()` (used by f-string interpolation in the error
messages of `validators.py`). -/
def pyStr : PyValue → String
  | .vInt n => toString n
  | .vBool b => if b then "True" else "False"
  | .vStr s => s
  | .vNone => "None"
  | .vList vs => "[" ++ String.intercalate ", " (pyReprList vs) ++ "]"

/- ## Embedding of Python `int(str)` -/

/-- ASCII whitespace accepted (stripped) by Python `int()` on strings. -/
def isPyWs (c : Char) : Bool :=
  c = ' ' || c = '\t' || c = '\n' || c = '\r' || c = '\x0b' || c = '\x0c'

/-- Digit run with single underscores allowed between digits, as in Python
integer literals accepted by `int()`.  The flag records whether the previous
character was an underscore (which must be followed by a digit). -/
def parseDigitsAux : List Char → Bool → Nat → Option Nat
  | [], afterUnd, acc => if afterUnd then none else some acc
  | c :: rest, afterUnd, acc =>
    if c.isDigit then parseDigitsAux rest false (acc * 10 + (c.toNat - 48))
    else if c = '_' then
      if afterUnd then none else parseDigitsAux rest true acc
    else none

/-- Embedding of Python `int(s)` for ASCII strings: optional surrounding
whitespace, optional sign, then digits with optional single underscores
between digits.  Returns `none` where Python raises `ValueError`. -/
def pyParseInt (s : String) : Option Int :=
  let cs := (((s.toList.dropWhile isPyWs).reverse.dropWhile isPyWs).reverse)
  match cs with
  | [] => none
  | c :: rest =>
    let signBody : Int × List Char :=
      if c = '-' then (-1, rest) else if c = '+' then (1, rest) else (1, c :: rest)
    match signBody.2 with
    | [] => none
    | d :: ds =>
      if d.isDigit then
        (parseDigitsAux ds false (d.toNat - 48)).map (fun n => signBody.1 * (n : Int))
      else none

/- ## Embedding of the username regular expression -/

/-- A character matched by the class `[a-zA-Z0-9_]` of the username pattern in
`validators.py`. -/
def isWordChar (c : Char) : Bool := c.isAlpha || c.isDigit || c = '_'

/-- Strip the optional leading `@` of the username pattern. -/
def stripAt (cs : List Char) : List Char :=
  match cs with
  | [] => []
  | c :: rest => if c = '@' then rest else c :: rest

/-- Strip one trailing newline, the position where the Python regex anchor
`$` also matches. -/
def stripTrailNl (cs : List Char) : List Char :=
  if cs.getLast? = some '\n' then cs.dropLast else cs

/-- Embedding of `re.match(r"^@?[a-zA-Z0-9_]{5,}$", s)` being a match, on the
character list of `s`.  Python `$` matches at the end of the string or just
before a single trailing newline, so one trailing newline is stripped first;
then an optional leading `@`; the remainder must be 5 or more word
characters. -/
def pyUsernameMatchL (cs : List Char) : Bool :=
  let core := stripAt (stripTrailNl cs)
  5 ≤ core.length && core.all isWordChar

/-- `pyUsernameMatchL` on a string. -/
def pyUsernameMatch (s : String) : Bool := pyUsernameMatchL s.toList

/-- The username pattern as the specification words it: an optional leading
`@` followed by 5 or more alphanumeric/underscore characters, and nothing
else.  Used to compare the specification against the code's regex
semantics. -/
def specUsernameMatchL (cs : List Char) : Bool :=
  let core := stripAt cs
  5 ≤ core.length && core.all isWordChar

/-- `specUsernameMatchL` on a string. -/
def specUsernameMatch (s : String) : Bool := specUsernameMatchL s.toList

/- ## Embedding of validate_single_id and the validate_id decorator -/

/-- `-(2**63)`, the lower bound of the accepted ID range. -/
def int64Min : Int := -(2 ^ 63)

/-- `2**63 - 1`, the upper bound of the accepted ID range. -/
def int64Max : Int := 2 ^ 63 - 1

/-- The range check `-(2**63) <= value <= 2**63 - 1` from `validators.py`. -/
def inInt64 (n : Int) : Bool := decide (int64Min ≤ n) && decide (n ≤ int64Max)

/-- The out-of-range message of `validate_single_id` (value rendered by
`str`). -/
def rangeMsg (pName : String) (v : PyValue) : String :=
  "Invalid " ++ pName ++ ": " ++ pyStr v ++ ". ID is out of the valid integer range."

/-- The bad-username message of `validate_single_id` (value rendered inside
single quotes). -/
def usernameMsg (pName : String) (v : PyValue) : String :=
  "Invalid " ++ pName ++ ": " ++ sglQuote ++ pyStr v ++ sglQuote ++
    ". Must be a valid integer ID, or a username string."

/-- The bad-type message of `validate_single_id`. -/
def typeMsg (pName : String) (v : PyValue) : String :=
  "Invalid " ++ pName ++ ": " ++ pyStr v ++ ". Type must be an integer or a string."

/-- Embedding of the inner `validate_single_id(value, p_name)` of
`validators.py`.  Python returns a pair `(validated, error_msg)`; this is
embedded as `Except`: `.ok v` for `(v, None)` and `.error msg` for
`(None, msg)`.  Python booleans pass `isinstance(value, int)` with values
0/1. -/
def validate_single_id (value : PyValue) (pName : String) : Except String PyValue :=
  match value with
  | .vInt n =>
    if inInt64 n then .ok (.vInt n) else .error (rangeMsg pName (.vInt n))
  | .vBool b =>
    if inInt64 (if b then 1 else 0) then .ok (.vBool b)
    else .error (rangeMsg pName (.vBool b))
  | .vStr s =>
    match pyParseInt s with
    | some n =>
      if inInt64 n then .ok (.vInt n) else .error (rangeMsg pName (.vStr s))
    | none =>
      if pyUsernameMatch s then .ok (.vStr s)
      else .error (usernameMsg pName (.vStr s))
  | .vList vs => .error (typeMsg pName (.vList vs))
  | .vNone => .error (typeMsg pName .vNone)

/-- Keyword-argument map of a Python call (no duplicate keys). -/
abbrev Kwargs := List (String × PyValue)

/-- Replace the value bound to `k` (models `kwargs[param_name] = value`). -/
def kwUpdate (kwargs : Kwargs) (k : String) (v : PyValue) : Kwargs :=
  kwargs.map (fun p => if p.1 = k then (p.1, v) else p)

/-- Embedding of the arguments of one tool call: positional arguments and
keyword arguments, as received by the `validate_id` wrapper
(`*args, **kwargs`). -/
structure CallArgs where
  positional : List PyValue
  kwargs : Kwargs

/-- Validation of one designated parameter by the `validate_id` wrapper:
skipped when the name is absent from the keyword arguments or bound to
`None`; a list validates element-wise, failing on the first bad element;
otherwise the single value is validated and the keyword argument replaced
with the validated value. -/
def validateParam (kwargs : Kwargs) (pName : String) : Except String Kwargs :=
  match kwargs.lookup pName with
  | none => .ok kwargs
  | some .vNone => .ok kwargs
  | some (.vList items) =>
    match items.mapM (fun item => validate_single_id item pName) with
    | .ok validated => .ok (kwUpdate kwargs pName (.vList validated))
    | .error msg => .error msg
  | some v =>
    match validate_single_id v pName with
    | .ok validated => .ok (kwUpdate kwargs pName validated)
    | .error msg => .error msg

/-- Fold of `validateParam` over the designated parameter names, failing on
the first rejection (models the decorator's loop over
`param_names_to_validate`). -/
def validateAll (params : List String) (kwargs : Kwargs) : Except String Kwargs :=
  match params with
  | [] => .ok kwargs
  | p :: rest =>
    match validateParam kwargs p with
    | .ok kwargs2 => validateAll rest kwargs2
    | .error msg => .error msg

/-- What a wrapped tool invocation hands back to the protocol layer: either a
returned string or a propagating exception (with its text). -/
abbrev ToolReturn := Except String String

/-- Embedding of the `wrapper` closure produced by the `validate_id`
decorator: validate the designated keyword arguments, returning the
validation error message (which `log_and_format_error` passes through
verbatim as `user_message`) without invoking the wrapped tool on failure, and
invoke the wrapped tool on the possibly-updated arguments otherwise. -/
def validateIdWrapper (params : List String) (func : CallArgs → ToolReturn)
    (call : CallArgs) : ToolReturn :=
  match validateAll params call.kwargs with
  | .error msg => .ok msg
  | .ok kwargs2 => func { call with kwargs := kwargs2 }

/- ## Embedding of exceptions.py (log_and_format_error) -/

/-- The members of the `ErrorCategory` enum of `exceptions.py`, in declaration
order (`name` and `value` coincide for every member). -/
def errorCategoryNames : List String :=
  ["CHAT", "MSG", "CONTACT", "GROUP", "MEDIA", "PROFILE", "AUTH", "ADMIN", "FOLDER"]

/-- Substring test on strings (Python `needle in hay`). -/
def strContains (hay needle : String) : Bool :=
  hay.toList.tails.any (fun t => needle.toList.isPrefixOf t)

/-- ASCII lower-casing (Python `str.lower()` on the ASCII strings involved
here). -/
def strLower (s : String) : String := ⟨s.data.map Char.toLower⟩

/-- Suffix test on strings (Python `str.endswith`). -/
def strEndsWith (s suffix : String) : Bool := suffix.toList.isSuffixOf s.toList

/-- The category-inference loop of `log_and_format_error`: the first
`ErrorCategory` whose lower-cased name is a substring of the lower-cased
function name, if any. -/
def inferCategory (functionName : String) : Option String :=
  errorCategoryNames.find? (fun c => strContains (strLower functionName) (strLower c))

/-- The `prefix` argument of `log_and_format_error`: absent, an
`ErrorCategory` member (carried by name), or a plain string. -/
inductive CodeTag where
  | noTag : CodeTag
  | catTag : String → CodeTag
  | strTag : String → CodeTag

/-- Zero-padded three-digit rendering of `n % 1000` (Python `f"{n:03d}"` for
`0 <= n < 1000`). -/
def pad3 (n : Nat) : String :=
  if n < 10 then "00" ++ toString n
  else if n < 100 then "0" ++ toString n
  else toString n

/-- The error-code computation of `log_and_format_error`.  `h` is the
process-wide Python string hash (`hash(function_name)`); CPython salts it
with a per-process random seed, so `h` is fixed within one run but varies
between runs.  The special case returns the string `VALIDATION-001`
unchanged; otherwise the prefix (inferred from the function name when
absent, with fallback `GEN`) is combined with `abs(hash(function_name)) %
1000`. -/
def errorCode (h : String → Int) (functionName : String) (tag : CodeTag) : String :=
  match tag with
  | .strTag "VALIDATION-001" => "VALIDATION-001"
  | _ =>
    let tagStr :=
      match tag with
      | .noTag => (inferCategory functionName).getD "GEN"
      | .catTag c => c
      | .strTag s => s
    tagStr ++ "-ERR-" ++ pad3 ((h functionName).natAbs % 1000)

/-- The server-side log record written by `log_and_format_error` via
`logger.error(..., exc_info=True)`: the function name, the formatted context
parameters, the error code, and the full exception (text), which `exc_info`
places in the log. -/
structure LogRecord where
  functionName : String
  context : List (String × String)
  code : String
  errorText : String

/-- The pair of observable effects of `log_and_format_error`: the string it
returns to the caller and the record it logs server-side. -/
structure FormatResult where
  message : String
  log : LogRecord

/-- Embedding of `log_and_format_error(function_name, error, prefix,
user_message, **kwargs)` from `exceptions.py`.  The exception is embedded by
its text `errorText`; `h` is the per-process string hash (see
`errorCode`). -/
def log_and_format_error (h : String → Int) (functionName : String)
    (errorText : String) (tag : CodeTag) (userMessage : Option String)
    (kwargs : List (String × String)) : FormatResult :=
  { message :=
      match userMessage with
      | some um => um
      | none =>
        "An error occurred (code: " ++ errorCode h functionName tag ++
          "). Check mcp_errors.log for details.",
    log :=
      { functionName := functionName, context := kwargs,
        code := errorCode h functionName tag, errorText := errorText } }

/- ## Embedding of the file-path-accepting tools -/

/-- The filesystem as the tools observe it through `os.path.isfile` and
`os.access(..., os.R_OK)`. -/
structure FileSys where
  isFile : String → Bool
  readable : String → Bool

/-- The Telethon client as the tools observe it.  Each method either returns
a value or raises an exception (embedded as the exception text).
`guessMime` is `mimetypes.guess_type`, whose table depends on the host
(CPython built-ins plus `/etc/mime.types` when present). -/
structure ClientEnv where
  getEntity : PyValue → Except String Nat
  sendFileTo : Nat → String → Option String → Except String Unit
  uploadFile : String → Except String Nat
  uploadProfilePhoto : Nat → Except String Unit
  guessMime : String → Option String

/-- Rendering of an optional string for log context (Python `str(None)` is
`None`). -/
def optStr : Option String → String
  | none => "None"
  | some s => s

/-- A raised-or-returned tool body outcome together with the trace of file
paths the body handed to the remote client (read/uploaded). -/
abbrev BodyResult := Except String String × List String

/-- Embedding of the `except Exception` handler every tool body is wrapped
in: a raised exception is converted into the string produced by
`log_and_format_error`, and nothing propagates. -/
def toolExceptGuard (h : String → Int) (fname : String)
    (kwargs : List (String × String)) : BodyResult → ToolReturn × List String
  | (.ok s, tr) => (.ok s, tr)
  | (.error e, tr) => (.ok (log_and_format_error h fname e .noTag none kwargs).message, tr)

/-- Embedding of the body of `send_file` (tools/media.py): existence and
readability checks on the raw path, then entity lookup and upload.  No path
resolver is consulted anywhere in the body. -/
def send_file_body (c : ClientEnv) (fs : FileSys) (chatId : PyValue)
    (filePath : String) (caption : Option String) : BodyResult :=
  if fs.isFile filePath = false then (.ok ("File not found: " ++ filePath), [])
  else if fs.readable filePath = false then (.ok ("File is not readable: " ++ filePath), [])
  else
    match c.getEntity chatId with
    | .error e => (.error e, [])
    | .ok ent =>
      match c.sendFileTo ent filePath caption with
      | .error e => (.error e, [filePath])
      | .ok _ => (.ok ("File sent to chat " ++ pyStr chatId ++ "."), [filePath])

/-- The `send_file` tool: its body guarded by the `except Exception`
handler. -/
def send_file (h : String → Int) (c : ClientEnv) (fs : FileSys) (chatId : PyValue)
    (filePath : String) (caption : Option String) : ToolReturn × List String :=
  toolExceptGuard h "send_file"
    [("chat_id", pyStr chatId), ("file_path", filePath), ("caption", optStr caption)]
    (send_file_body c fs chatId filePath caption)

/-- Embedding of the body of `send_sticker` (tools/media.py): existence,
readability, then the `.webp` suffix check on the lower-cased path. -/
def send_sticker_body (c : ClientEnv) (fs : FileSys) (chatId : PyValue)
    (filePath : String) : BodyResult :=
  if fs.isFile filePath = false then (.ok ("Sticker file not found: " ++ filePath), [])
  else if fs.readable filePath = false then
    (.ok ("Sticker file is not readable: " ++ filePath), [])
  else if strEndsWith (strLower filePath) ".webp" = false then
    (.ok "Sticker file must be a .webp file.", [])
  else
    match c.getEntity chatId with
    | .error e => (.error e, [])
    | .ok ent =>
      match c.sendFileTo ent filePath none with
      | .error e => (.error e, [filePath])
      | .ok _ => (.ok ("Sticker sent to chat " ++ pyStr chatId ++ "."), [filePath])

/-- The `send_sticker` tool with its `except Exception` guard. -/
def send_sticker (h : String → Int) (c : ClientEnv) (fs : FileSys) (chatId : PyValue)
    (filePath : String) : ToolReturn × List String :=
  toolExceptGuard h "send_sticker" [("chat_id", pyStr chatId), ("file_path", filePath)]
    (send_sticker_body c fs chatId filePath)

/-- The acceptance condition of `send_voice` on a path that exists and is
readable: `mime and (mime == "audio/ogg" or path.lower().endswith(".ogg") or
path.lower().endswith(".opus"))`. -/
def voiceAccepts (c : ClientEnv) (filePath : String) : Bool :=
  match c.guessMime filePath with
  | none => false
  | some m =>
    m == "audio/ogg" || strEndsWith (strLower filePath) ".ogg" ||
      strEndsWith (strLower filePath) ".opus"

/-- Embedding of the body of `send_voice` (tools/media.py): existence,
readability, then the mime/suffix acceptance condition. -/
def send_voice_body (c : ClientEnv) (fs : FileSys) (chatId : PyValue)
    (filePath : String) : BodyResult :=
  if fs.isFile filePath = false then (.ok ("File not found: " ++ filePath), [])
  else if fs.readable filePath = false then (.ok ("File is not readable: " ++ filePath), [])
  else if voiceAccepts c filePath = false then
    (.ok "Voice file must be .ogg or .opus format.", [])
  else
    match c.getEntity chatId with
    | .error e => (.error e, [])
    | .ok ent =>
      match c.sendFileTo ent filePath none with
      | .error e => (.error e, [filePath])
      | .ok _ => (.ok ("Voice message sent to chat " ++ pyStr chatId ++ "."), [filePath])

/-- The `send_voice` tool with its `except Exception` guard. -/
def send_voice (h : String → Int) (c : ClientEnv) (fs : FileSys) (chatId : PyValue)
    (filePath : String) : ToolReturn × List String :=
  toolExceptGuard h "send_voice" [("chat_id", pyStr chatId), ("file_path", filePath)]
    (send_voice_body c fs chatId filePath)

/-- Embedding of the body of `set_profile_photo` (tools/users.py): the raw
path is handed to `client.upload_file` immediately, with no check of any
kind. -/
def set_profile_photo_body (c : ClientEnv) (filePath : String) : BodyResult :=
  match c.uploadFile filePath with
  | .error e => (.error e, [filePath])
  | .ok f =>
    match c.uploadProfilePhoto f with
    | .error e => (.error e, [filePath])
    | .ok _ => (.ok "Profile photo updated.", [filePath])

/-- The `set_profile_photo` tool with its `except Exception` guard. -/
def set_profile_photo (h : String → Int) (c : ClientEnv) (filePath : String) :
    ToolReturn × List String :=
  toolExceptGuard h "set_profile_photo" [("file_path", filePath)]
    (set_profile_photo_body c filePath)

/-- A client environment on which every remote call succeeds (used to
evaluate the tools on concrete inputs). -/
def allOkClient : ClientEnv where
  getEntity := fun _ => .ok 7
  sendFileTo := fun _ _ _ => .ok ()
  uploadFile := fun _ => .ok 7
  uploadProfilePhoto := fun _ => .ok ()
  guessMime := fun _ => none

/- ## Root negotiator and path resolver (absent from src, modelled from the spec) -/

/-- An absolute, canonical path as a list of components. -/
abbrev AbsPath := List String

/-- The outcome of asking the calling peer for its declared MCP roots:
a successful answer (possibly zero roots), a recognized
capability-not-supported signal, or any other failure. -/
inductive RootsQueryResult where
  | answered : List AbsPath → RootsQueryResult
  | unsupported : RootsQueryResult
  | failed : RootsQueryResult

/-- Modelled from the spec: `_get_effective_allowed_roots` is referenced only
by `test_file_path_security.py` and is absent from src.  Per spec section 4.1:
no call context uses the static server roots; a successful peer answer (even
empty) replaces them entirely; a recognized capability-not-supported signal
falls back to the server roots; any other failure yields the empty
(deny-all) list. -/
def effectiveRoots (ctx : Option RootsQueryResult) (serverRoots : List AbsPath) :
    List AbsPath :=
  match ctx with
  | none => serverRoots
  | some (.answered clientRoots) => clientRoots
  | some .unsupported => serverRoots
  | some .failed => []

/-- A raw user-supplied path: absolute or relative, with its components as
written (possibly containing `.` and `..`). -/
structure RawPath where
  absolute : Bool
  comps : List String

/-- Lexical canonicalization of path components on top of a starting
absolute path: `.` and empty components vanish, `..` removes the last
component. -/
def normalizeComps (start : AbsPath) (comps : List String) : AbsPath :=
  comps.foldl
    (fun acc c =>
      if c = "." ∨ c = "" then acc
      else if c = ".." then acc.dropLast
      else acc ++ [c])
    start

/-- Canonicalization of a raw path: an absolute raw path stands alone, a
relative one is resolved against the first effective root (spec section 4.2
step 2). -/
def canonicalizeRaw (roots : List AbsPath) (raw : RawPath) : AbsPath :=
  if raw.absolute then normalizeComps [] raw.comps
  else normalizeComps (roots.headD []) raw.comps

/-- Containment: the canonical path is equal to or a descendant of some
effective root. -/
def insideRoots (p : AbsPath) (roots : List AbsPath) : Bool :=
  roots.any (fun r => r.isPrefixOf p)

/-- Modelled from the spec: the per-tool extension allow-list (spec section
6): stickers require `.webp`, voice notes `.ogg`/`.opus`; tools without an
entry allow any extension. -/
def extensionAllowList : String → Option (List String)
  | "send_sticker" => some [".webp"]
  | "send_voice" => some [".ogg", ".opus"]
  | _ => none

/-- Lower-cased extension (with leading dot) of a file name, empty when the
name has no dot. -/
def fileExt (name : String) : String :=
  let cs := (strLower name).toList
  if cs.contains '.' then
    ⟨'.' :: (cs.reverse.takeWhile (fun c => c ≠ '.')).reverse⟩
  else ""

/-- Modelled from the spec: the wording of the deny-all message of the
resolver, distinguishing (as the tests require) an explicitly empty
client-declared root list from a failed negotiation and from an empty server
configuration; all three say the tools are disabled. -/
def disabledMessage : Option RootsQueryResult → String
  | some (.answered _) =>
    "File tools are disabled: the client declared an empty MCP Roots list (deny-all)."
  | some .failed => "File tools are disabled: root negotiation failed (deny-all)."
  | _ => "File tools are disabled: no allowed roots are configured (deny-all)."

/-- Modelled from the spec: `_resolve_readable_file_path` is referenced only
by `test_file_path_security.py` and is absent from src.  Spec section 4.2:
empty effective roots deny with a disabled message; a relative path resolves
against the first root; after canonicalization, a path outside every root is
denied with "Path traversal is not allowed." when the raw input contains a
`..` component and with "Path is outside allowed roots." otherwise; finally
the per-tool extension allow-list is enforced with a message naming the
disallowed extension. -/
def resolveReadablePath (ctx : Option RootsQueryResult) (serverRoots : List AbsPath)
    (raw : RawPath) (toolName : String) : Except String AbsPath :=
  let roots := effectiveRoots ctx serverRoots
  if roots.isEmpty then .error (disabledMessage ctx)
  else
    let canon := canonicalizeRaw roots raw
    if insideRoots canon roots = false then
      if raw.comps.contains ".." then .error "Path traversal is not allowed."
      else .error "Path is outside allowed roots."
    else
      match extensionAllowList toolName with
      | none => .ok canon
      | some exts =>
        if exts.contains (fileExt (canon.getLastD "")) then .ok canon
        else .error
          ("File extension is not allowed for " ++ toolName ++ ": " ++
            fileExt (canon.getLastD ""))

/- ## Helper lemmas -/

/-- The except-Exception guard always yields a returned string. -/
theorem toolExceptGuard_ok (h : String → Int) (fname : String)
    (kwargs : List (String × String)) (b : BodyResult) :
    ∃ s, (toolExceptGuard h fname kwargs b).1 = .ok s := by
  rcases b with ⟨res, tr⟩
  cases res with
  | ok s => exact ⟨s, rfl⟩
  | error e =>
    exact ⟨(log_and_format_error h fname e .noTag none kwargs).message, rfl⟩

/-- Designated parameters absent from the keyword arguments validate
vacuously. -/
theorem validateAll_of_lookup_none (params : List String) (kwargs : Kwargs)
    (hnk : ∀ p ∈ params, kwargs.lookup p = none) :
    validateAll params kwargs = .ok kwargs := by
  induction params with
  | nil => rfl
  | cons p rest ih =>
    have hp : kwargs.lookup p = none := hnk p (List.mem_cons_self p rest)
    have hrest : ∀ q ∈ rest, kwargs.lookup q = none :=
      fun q hq => hnk q (List.mem_cons_of_mem p hq)
    simp [validateAll, validateParam, hp, ih hrest]

/- ## Claim theorems -/

/-- C2: root negotiation: a successful peer answer (even the empty list)
entirely replaces the server root list; no call context or a recognized
capability-not-supported signal falls back to the static server roots; any
other negotiation failure yields the empty (deny-all) list, never the server
fallback. -/
theorem c2_root_negotiation (serverRoots : List AbsPath) :
    (∀ clientRoots, effectiveRoots (some (.answered clientRoots)) serverRoots = clientRoots) ∧
    effectiveRoots none serverRoots = serverRoots ∧
    effectiveRoots (some .unsupported) serverRoots = serverRoots ∧
    effectiveRoots (some .failed) serverRoots = [] :=
  ⟨fun _ => rfl, rfl, rfl, rfl⟩

/-- C3: a raw path with a `..` traversal component whose canonicalization
escapes every effective root is denied with exactly "Path traversal is not
allowed."; an absolute raw path without traversal syntax that canonicalizes
outside every effective root is denied with exactly "Path is outside allowed
roots." (the effective root list being non-empty, else resolution already
fails with the disabled message). -/
theorem c3_denial_messages (ctx : Option RootsQueryResult) (serverRoots : List AbsPath)
    (raw : RawPath) (tool : String)
    (hroots : effectiveRoots ctx serverRoots ≠ [])
    (hout : insideRoots (canonicalizeRaw (effectiveRoots ctx serverRoots) raw)
      (effectiveRoots ctx serverRoots) = false) :
    (raw.comps.contains ".." = true →
      resolveReadablePath ctx serverRoots raw tool = .error "Path traversal is not allowed.") ∧
    (raw.absolute = true → raw.comps.contains ".." = false →
      resolveReadablePath ctx serverRoots raw tool = .error "Path is outside allowed roots.") := by
  have hempty : (effectiveRoots ctx serverRoots).isEmpty = false := by
    rcases h : effectiveRoots ctx serverRoots with _ | ⟨r, rs⟩
    · exact absurd h hroots
    · rfl
  constructor
  · intro hc
    simp [resolveReadablePath, hempty, hout, hc]
    simpa using hc
  · intro _ hc
    simp [resolveReadablePath, hempty, hout, hc]
    simpa using hc

/-- Witness for C3 at concrete inputs: the traversal raw path
`../etc/passwd` against the lone root `/srv/data`, and the foreign absolute
path `/etc/passwd` against the same root. -/
theorem c3_denial_messages_witness :
    resolveReadablePath none [["srv", "data"]]
        { absolute := false, comps := ["..", "etc", "passwd"] } "send_file"
      = .error "Path traversal is not allowed." ∧
    resolveReadablePath none [["srv", "data"]]
        { absolute := true, comps := ["etc", "passwd"] } "send_file"
      = .error "Path is outside allowed roots." :=
  ⟨(c3_denial_messages none [["srv", "data"]]
      { absolute := false, comps := ["..", "etc", "passwd"] } "send_file"
      (by decide) (by decide)).1 (by decide),
   (c3_denial_messages none [["srv", "data"]]
      { absolute := true, comps := ["etc", "passwd"] } "send_file"
      (by decide) (by decide)).2 (by decide) (by decide)⟩

/-- C1: evaluation of the code at the failing input.  With the server
allow-list `/srv/data`, `send_file` called on `/etc/passwd` (existing,
readable, outside every allowed root) hands the path to the remote client
and returns the success string — no resolver runs and no denial string is
returned, although the (spec-modelled) resolver denies this path; and
`set_profile_photo` uploads its raw path unconditionally. -/
theorem c1_code_evaluation :
    send_file (fun _ => 0) allOkClient
        { isFile := fun p => p == "/etc/passwd", readable := fun p => p == "/etc/passwd" }
        (.vInt 123) "/etc/passwd" none
      = (.ok "File sent to chat 123.", ["/etc/passwd"]) ∧
    set_profile_photo (fun _ => 0) allOkClient "/etc/passwd"
      = (.ok "Profile photo updated.", ["/etc/passwd"]) ∧
    resolveReadablePath none [["srv", "data"]]
        { absolute := true, comps := ["etc", "passwd"] } "send_file"
      = .error "Path is outside allowed roots." :=
  ⟨rfl, rfl, rfl⟩

/-- C9: the `validate_id` wrapper inspects only keyword arguments: whenever
none of the designated parameter names occurs among the keyword arguments of
the call — in particular when the values arrive positionally — the wrapped
tool is invoked on the call unchanged, whatever the values are. -/
theorem c9_positional_bypass (params : List String) (func : CallArgs → ToolReturn)
    (call : CallArgs) (hnk : ∀ p ∈ params, call.kwargs.lookup p = none) :
    validateIdWrapper params func call = func call := by
  unfold validateIdWrapper
  rw [validateAll_of_lookup_none params call.kwargs hnk]

/-- Witness for C9: the out-of-range ID `2**63` passed positionally reaches
the tool body unchanged and is echoed back, with no validation error. -/
theorem c9_positional_bypass_witness :
    validateIdWrapper ["chat_id"]
        (fun ca => .ok (pyStr (ca.positional.headD .vNone)))
        { positional := [.vInt 9223372036854775808], kwargs := [] }
      = .ok "9223372036854775808" := by
  rw [c9_positional_bypass ["chat_id"]
    (fun ca => .ok (pyStr (ca.positional.headD .vNone)))
    { positional := [.vInt 9223372036854775808], kwargs := [] }
    (by intro p _; rfl)]
  rfl

/-- C10: the Python booleans `True` and `False` are `int` instances with
values 1 and 0, pass the signed 64-bit range check of `validate_single_id`,
and are forwarded to the wrapped tool unchanged rather than rejected. -/
theorem c10_bools_accepted (func : CallArgs → ToolReturn) :
    validate_single_id (.vBool true) "chat_id" = .ok (.vBool true) ∧
    validate_single_id (.vBool false) "chat_id" = .ok (.vBool false) ∧
    validateIdWrapper ["chat_id"] func
        { positional := [], kwargs := [("chat_id", .vBool true)] }
      = func { positional := [], kwargs := [("chat_id", .vBool true)] } :=
  ⟨rfl, rfl, rfl⟩

/-- C4 counterexample: `send_sticker` on the existing, readable, disallowed
path `sticker.txt` returns the fixed message "Sticker file must be a .webp
file.", which does not name the disallowed extension `.txt` — refuting the
claim that on rejection the returned message names the disallowed
extension. -/
theorem c4_counterexample :
    send_sticker (fun _ => 0) allOkClient
        { isFile := fun p => p == "sticker.txt", readable := fun p => p == "sticker.txt" }
        (.vInt 1) "sticker.txt"
      = (.ok "Sticker file must be a .webp file.", []) ∧
    strContains "Sticker file must be a .webp file." ".txt" = false :=
  ⟨rfl, by decide⟩

/-- C4 as amended: on an existing, readable path, `send_sticker` proceeds to
hand the file to the client iff the lower-cased path ends in `.webp`,
rejecting otherwise with the fixed message "Sticker file must be a .webp
file."; `send_voice` proceeds iff `mimetypes` guesses a type for the path
and (the guess is `audio/ogg` or the lower-cased path ends in `.ogg` or
`.opus`), rejecting otherwise with the fixed message "Voice file must be
.ogg or .opus format.".  The rejection messages name the required
extensions, not the caller's extension. -/
theorem c4_amended (h : String → Int) (c : ClientEnv) (fs : FileSys) (chatId : PyValue)
    (fp : String) (hf : fs.isFile fp = true) (hr : fs.readable fp = true) :
    (strEndsWith (strLower fp) ".webp" = false →
      send_sticker h c fs chatId fp = (.ok "Sticker file must be a .webp file.", [])) ∧
    (strEndsWith (strLower fp) ".webp" = true → ∀ ent, c.getEntity chatId = .ok ent →
      (send_sticker h c fs chatId fp).2 = [fp]) ∧
    (voiceAccepts c fp = false →
      send_voice h c fs chatId fp = (.ok "Voice file must be .ogg or .opus format.", [])) ∧
    (voiceAccepts c fp = true → ∀ ent, c.getEntity chatId = .ok ent →
      (send_voice h c fs chatId fp).2 = [fp]) := by
  refine ⟨fun hw => ?_, fun hw ent he => ?_, fun hv => ?_, fun hv ent he => ?_⟩
  · simp [send_sticker, send_sticker_body, toolExceptGuard, hf, hr, hw]
  · rcases hs : c.sendFileTo ent fp none with e | u <;>
      simp [send_sticker, send_sticker_body, toolExceptGuard, hf, hr, hw, he, hs]
  · simp [send_voice, send_voice_body, toolExceptGuard, hf, hr, hv]
  · rcases hs : c.sendFileTo ent fp none with e | u <;>
      simp [send_voice, send_voice_body, toolExceptGuard, hf, hr, hv, he, hs]

/-- Witness for C4 as amended: an in-policy sticker `pic.webp` is handed to
the client; an out-of-policy voice path `note.txt` (no mime guess) is
rejected with the fixed message. -/
theorem c4_amended_witness :
    (send_sticker (fun _ => 0) allOkClient
        { isFile := fun _ => true, readable := fun _ => true } (.vInt 1) "pic.webp").2
      = ["pic.webp"] ∧
    send_voice (fun _ => 0) allOkClient
        { isFile := fun _ => true, readable := fun _ => true } (.vInt 1) "note.txt"
      = (.ok "Voice file must be .ogg or .opus format.", []) :=
  ⟨(c4_amended (fun _ => 0) allOkClient
      { isFile := fun _ => true, readable := fun _ => true } (.vInt 1) "pic.webp"
      rfl rfl).2.1 rfl 7 rfl,
   (c4_amended (fun _ => 0) allOkClient
      { isFile := fun _ => true, readable := fun _ => true } (.vInt 1) "note.txt"
      rfl rfl).2.2.1 rfl⟩

/-- C5: every embedded tool invocation returns a string through the ordinary
return channel for every environment and every input — including
environments in which any client call raises — and the `validate_id` wrapper
preserves this: no exception propagates to the protocol layer. -/
theorem c5_tools_always_return_strings (h : String → Int) (c : ClientEnv) (fs : FileSys)
    (chatId : PyValue) (fp : String) (caption : Option String) :
    (∃ s, (send_file h c fs chatId fp caption).1 = .ok s) ∧
    (∃ s, (send_sticker h c fs chatId fp).1 = .ok s) ∧
    (∃ s, (send_voice h c fs chatId fp).1 = .ok s) ∧
    (∃ s, (set_profile_photo h c fp).1 = .ok s) ∧
    (∀ params func call, (∀ ca : CallArgs, ∃ s, func ca = .ok s) →
      ∃ s, validateIdWrapper params func call = .ok s) := by
  refine ⟨toolExceptGuard_ok _ _ _ _, toolExceptGuard_ok _ _ _ _,
    toolExceptGuard_ok _ _ _ _, toolExceptGuard_ok _ _ _ _, ?_⟩
  intro params func call hfunc
  unfold validateIdWrapper
  rcases hv : validateAll params call.kwargs with msg | kw2
  · exact ⟨msg, rfl⟩
  · exact hfunc _

/-- Witness for C5: the wrapper composed with an always-returning tool body
returns a string on a concrete call. -/
theorem c5_tools_always_return_strings_witness :
    ∃ s, validateIdWrapper ["chat_id"] (fun _ => .ok "done")
        { positional := [], kwargs := [("chat_id", .vInt 5)] } = .ok s :=
  (c5_tools_always_return_strings (fun _ => 0) allOkClient
      { isFile := fun _ => true, readable := fun _ => true } (.vInt 5) "a.txt"
      none).2.2.2.2
    ["chat_id"] (fun _ => .ok "done")
    { positional := [], kwargs := [("chat_id", .vInt 5)] }
    (fun _ => ⟨"done", rfl⟩)

/-- C7: the string `log_and_format_error` returns to the caller does not
depend on the exception at all: two invocations differing only in the raised
exception return the identical message; the full exception text is recorded
in the server-side log record; and with no explicitly authored
`user_message` the returned message is the generic error-code message. -/
theorem c7_exception_text_stays_in_log (h : String → Int) (fn : String) (tag : CodeTag)
    (um : Option String) (kw : List (String × String)) (e1 e2 : String) :
    (log_and_format_error h fn e1 tag um kw).message
      = (log_and_format_error h fn e2 tag um kw).message ∧
    (log_and_format_error h fn e1 tag um kw).log.errorText = e1 ∧
    (um = none →
      (log_and_format_error h fn e1 tag um kw).message
        = "An error occurred (code: " ++ errorCode h fn tag ++
            "). Check mcp_errors.log for details.") := by
  cases um <;> simp [log_and_format_error]

/-- Witness for C7 at a concrete exception: the returned message is the
generic one and the log holds the exception text. -/
theorem c7_exception_text_stays_in_log_witness :
    (log_and_format_error (fun _ => 0) "send_file" "boom" .noTag none []).message
      = "An error occurred (code: " ++ errorCode (fun _ => 0) "send_file" .noTag ++
          "). Check mcp_errors.log for details." :=
  (c7_exception_text_stays_in_log (fun _ => 0) "send_file" .noTag none [] "boom" "other").2.2
    rfl

/-- C8 counterexample: the numeric part of the error code is
`abs(hash(function_name)) % 1000`, and CPython string hashing is salted per
process, so two runs of the program (embedded as two per-run hash functions)
produce different codes for the same function name and the same (inferred)
category — refuting "identical including across separate runs of the
program". -/
theorem c8_counterexample :
    (log_and_format_error (fun _ => 0) "send_file" "err" .noTag none []).log.code
      ≠ (log_and_format_error (fun _ => 1) "send_file" "err" .noTag none []).log.code := by
  decide

/-- C8 as amended: within one run (a fixed string-hash function) the error
code depends only on the function name and the category argument — not on
the exception, the user message or the context; and when no category is
given it is the first `ErrorCategory` whose lower-cased name occurs as a
substring of the lower-cased function name (`chat`, `msg`, `contact`,
`group`, `media`, `profile`, `auth`, `admin`, `folder`, in declaration
order), with the generic `GEN` fallback otherwise.  Across runs the numeric
suffix may differ with the per-process hash salt. -/
theorem c8_amended (h : String → Int) (fn : String) (tag : CodeTag)
    (e1 e2 : String) (um1 um2 : Option String) (kw1 kw2 : List (String × String)) :
    (log_and_format_error h fn e1 tag um1 kw1).log.code
      = (log_and_format_error h fn e2 tag um2 kw2).log.code ∧
    (log_and_format_error h fn e1 .noTag um1 kw1).log.code
      = ((inferCategory fn).getD "GEN") ++ "-ERR-" ++ pad3 ((h fn).natAbs % 1000) ∧
    inferCategory fn
      = errorCategoryNames.find? (fun c => strContains (strLower fn) (strLower c)) :=
  ⟨rfl, rfl, rfl⟩

/-- A character list ending in a newline never matches the spec-worded
username pattern (newline is not a word character). -/
theorem specUsernameMatchL_concat_newline (xs : List Char) :
    specUsernameMatchL (xs ++ ['\n']) = false := by
  cases xs with
  | nil => decide
  | cons c ys =>
    by_cases hc : c = '@' <;>
      simp [specUsernameMatchL, stripAt, hc, List.all_append, isWordChar]

/-- Stripping the trailing newline turns the Python match on `xs ++ "\n"`
into the spec-worded match on `xs`. -/
theorem pyUsernameMatchL_concat_newline (xs : List Char) :
    pyUsernameMatchL (xs ++ ['\n']) = specUsernameMatchL xs := by
  unfold pyUsernameMatchL specUsernameMatchL stripTrailNl
  rw [List.getLast?_concat]
  simp [List.dropLast_concat]

/-- Without a trailing newline the Python match and the spec-worded match
coincide. -/
theorem pyUsernameMatchL_no_newline (l : List Char) (h : l.getLast? ≠ some '\n') :
    pyUsernameMatchL l = specUsernameMatchL l := by
  unfold pyUsernameMatchL specUsernameMatchL stripTrailNl
  rw [if_neg h]

/-- Characterization of the code's regex acceptance: the Python pattern
accepts exactly the strings the spec wording accepts, plus those same
strings with one extra trailing newline. -/
theorem pyUsernameMatchL_iff (l : List Char) :
    pyUsernameMatchL l = true ↔
      (specUsernameMatchL l = true ∨
        ∃ cs, l = cs ++ ['\n'] ∧ specUsernameMatchL cs = true) := by
  rcases l.eq_nil_or_concat with rfl | ⟨cs, c, rfl⟩
  · constructor
    · intro h; exact absurd h (by decide)
    · rintro (h | ⟨cs, hcs, _⟩)
      · exact absurd h (by decide)
      · exact absurd hcs (by simp)
  · simp only [List.concat_eq_append]
    by_cases hc : c = '\n'
    · subst hc
      rw [pyUsernameMatchL_concat_newline]
      constructor
      · intro h; exact Or.inr ⟨cs, rfl, h⟩
      · rintro (h | ⟨cs2, heq, h2⟩)
        · rw [specUsernameMatchL_concat_newline] at h; exact absurd h (by simp)
        · have hcc : cs = cs2 := by
            have hdl := congrArg List.dropLast heq
            rwa [List.dropLast_concat, List.dropLast_concat] at hdl
          rw [hcc]; exact h2
    · rw [pyUsernameMatchL_no_newline (cs ++ [c])
        (by rw [List.getLast?_concat]; simp [hc])]
      constructor
      · exact Or.inl
      · rintro (h | ⟨cs2, heq, _⟩)
        · exact h
        · exfalso
          apply hc
          have hgl := congrArg List.getLast? heq
          rw [List.getLast?_concat, List.getLast?_concat] at hgl
          exact Option.some.inj hgl

/-- C6 counterexample: the string `"abcde\n"` is not an integer and is not of
the form optional-`@` followed by 5+ alphanumeric/underscore characters, yet
`validate_single_id` accepts it (Python `$` also matches before a trailing
newline) — refuting the claimed acceptance condition for non-integer
strings. -/
theorem c6_counterexample :
    validate_single_id (.vStr "abcde\n") "chat_id" = .ok (.vStr "abcde\n") ∧
    specUsernameMatch "abcde\n" = false :=
  ⟨rfl, by decide⟩

/-- C6 as amended: a string parsing as a Python integer is accepted iff the
parsed value is in the signed 64-bit range (rejected otherwise with the
range message naming the parameter and value); a non-integer string is
accepted iff it matches the username pattern under Python `re` semantics —
that is, optional `@` then 5+ word characters, optionally followed by one
trailing newline (which the claimed pattern wording omits); and on rejection
the wrapper returns the message naming the parameter and value without
invoking the wrapped tool. -/
theorem c6_amended (p s : String) :
    (∀ n, pyParseInt s = some n →
      validate_single_id (.vStr s) p =
        if inInt64 n then .ok (.vInt n) else .error (rangeMsg p (.vStr s))) ∧
    (pyParseInt s = none →
      validate_single_id (.vStr s) p =
        if pyUsernameMatch s then .ok (.vStr s) else .error (usernameMsg p (.vStr s))) ∧
    (pyUsernameMatch s = true ↔
      (specUsernameMatch s = true ∨
        ∃ cs, s.toList = cs ++ ['\n'] ∧ specUsernameMatchL cs = true)) ∧
    (∀ (func : CallArgs → ToolReturn) (call : CallArgs) (msg : String),
      call.kwargs = [(p, .vStr s)] →
      validate_single_id (.vStr s) p = .error msg →
      validateIdWrapper [p] func call = .ok msg) := by
  refine ⟨fun n hn => ?_, fun hn => ?_, pyUsernameMatchL_iff s.toList, ?_⟩
  · simp [validate_single_id, hn]
  · simp [validate_single_id, hn]
  · intro func call msg hkw hval
    simp [validateIdWrapper, validateAll, validateParam, hkw, hval]

/-- Witness for C6 as amended: the out-of-range integer string
`"99999999999999999999"` is rejected with the range message, and the
non-username string `"bad!"` makes the wrapper return the username message
without running the tool body. -/
theorem c6_amended_witness :
    validate_single_id (.vStr "99999999999999999999") "chat_id"
      = .error (rangeMsg "chat_id" (.vStr "99999999999999999999")) ∧
    validateIdWrapper ["chat_id"] (fun _ => .ok "ran")
        { positional := [], kwargs := [("chat_id", .vStr "bad!")] }
      = .ok (usernameMsg "chat_id" (.vStr "bad!")) := by
  constructor
  · rw [(c6_amended "chat_id" "99999999999999999999").1 99999999999999999999 rfl]
    rw [if_neg (by decide)]
  · exact (c6_amended "chat_id" "bad!").2.2.2 (fun _ => .ok "ran")
      { positional := [], kwargs := [("chat_id", .vStr "bad!")] }
      (usernameMsg "chat_id" (.vStr "bad!")) rfl rfl
